import Mathlib

/-!
Verification of the session layer of CryptoPokerJS: the WebSocket handshake
endpoint (`WSS_Handshake`, `makeConnectionID`, `makePrivateID`, `handshakeOK`,
`allSessions`) and the client-side request/response correlator in
`CypherPokerContract.callContractAPI`.

The JavaScript is embedded shallowly: the mutable
`namespace.websocket.connections` object becomes an explicit association list
from connection identifiers to record sequences, passed in and returned;
randomness (`Math.random`) and clock reads (`new Date()` / `Date.now()`)
become parameters; `sendError` / `sendResult` become an `Except` result.
32-bit machine arithmetic in the hash primitive is modelled on `Nat` with
explicit reduction modulo `2 ^ 32`.
-/

set_option maxRecDepth 100000

namespace CryptoPokerJS

/-! ## The hashing collaborator: SHA-256 (FIPS 180-4)

`makePrivateID` calls Node's `crypto.createHash('sha256')` and updates it with
a string, which Node encodes as UTF-8.  The primitive is embedded executably:
bytes and 32-bit words are `Nat` values reduced modulo `2 ^ 32` where the
machine would overflow. -/

/-- Value of a `Nat` as a 32-bit machine word. -/
def w32 (x : Nat) : Nat := x % 2 ^ 32

/-- Right rotation of a 32-bit word by `n` bits. -/
def rotr32 (n x : Nat) : Nat := w32 (x / 2 ^ n + x % 2 ^ n * 2 ^ (32 - n))

/-- Logical right shift by `n` bits. -/
def shr32 (n x : Nat) : Nat := x / 2 ^ n

/-- 32-bit bitwise complement. -/
def bnot32 (x : Nat) : Nat := 2 ^ 32 - 1 - x % 2 ^ 32

/-- SHA-256 Σ0. -/
def bigSigma0 (x : Nat) : Nat := rotr32 2 x ^^^ rotr32 13 x ^^^ rotr32 22 x

/-- SHA-256 Σ1. -/
def bigSigma1 (x : Nat) : Nat := rotr32 6 x ^^^ rotr32 11 x ^^^ rotr32 25 x

/-- SHA-256 σ0. -/
def smallSigma0 (x : Nat) : Nat := rotr32 7 x ^^^ rotr32 18 x ^^^ shr32 3 x

/-- SHA-256 σ1. -/
def smallSigma1 (x : Nat) : Nat := rotr32 17 x ^^^ rotr32 19 x ^^^ shr32 10 x

/-- SHA-256 Ch function. -/
def chF (x y z : Nat) : Nat := (x &&& y) ^^^ (bnot32 x &&& z)

/-- SHA-256 Maj function. -/
def majF (x y z : Nat) : Nat := (x &&& y) ^^^ (x &&& z) ^^^ (y &&& z)

/-- The 64 SHA-256 round constants. -/
def K256 : List Nat :=
  [1116352408, 1899447441, 3049323471, 3921009573, 961987163,
   1508970993, 2453635748, 2870763221, 3624381080, 310598401,
   607225278, 1426881987, 1925078388, 2162078206, 2614888103,
   3248222580, 3835390401, 4022224774, 264347078, 604807628,
   770255983, 1249150122, 1555081692, 1996064986, 2554220882,
   2821834349, 2952996808, 3210313671, 3336571891, 3584528711,
   113926993, 338241895, 666307205, 773529912, 1294757372,
   1396182291, 1695183700, 1986661051, 2177026350, 2456956037,
   2730485921, 2820302411, 3259730800, 3345764771, 3516065817,
   3600352804, 4094571909, 275423344, 430227734, 506948616,
   659060556, 883997877, 958139571, 1322822218, 1537002063,
   1747873779, 1955562222, 2024104815, 2227730452, 2361852424,
   2428436474, 2756734187, 3204031479, 3329325298]

/-- The SHA-256 initial hash value. -/
def H0 : List Nat :=
  [1779033703, 3144134277, 1013904242, 2773480762,
   1359893119, 2600822924, 528734635, 1541459225]

/-- UTF-8 encoding of one Unicode code point. -/
def utf8Bytes (c : Nat) : List Nat :=
  if c < 128 then [c]
  else if c < 2048 then [192 + c / 64, 128 + c % 64]
  else if c < 65536 then [224 + c / 4096, 128 + c / 64 % 64, 128 + c % 64]
  else [240 + c / 262144, 128 + c / 4096 % 64, 128 + c / 64 % 64, 128 + c % 64]

/-- The UTF-8 bytes of a string, as Node's `hash.update` encodes it. -/
def strBytes (s : String) : List Nat :=
  (s.data.map fun c => utf8Bytes c.toNat).flatten

/-- SHA-256 padding: append `0x80`, zeros to 56 mod 64, and the 64-bit
big-endian bit length. -/
def padBytes (msg : List Nat) : List Nat :=
  let L := msg.length
  let k := (64 + 55 - L % 64) % 64
  let lenBits := 8 * L
  msg ++ [0x80] ++ List.replicate k 0 ++
    (List.range 8).map (fun i => lenBits / 2 ^ (8 * (7 - i)) % 256)

/-- Group bytes into big-endian 32-bit words. -/
def bytesToWords : List Nat → List Nat
  | b0 :: b1 :: b2 :: b3 :: rest =>
      (((b0 * 256 + b1) * 256 + b2) * 256 + b3) :: bytesToWords rest
  | _ => []

/-- Split a word list into 16-word blocks (structural recursion on a fuel
bound; each step consumes at least one word, so `l.length` fuel suffices). -/
def toBlocksAux : Nat → List Nat → List (List Nat)
  | 0, _ => []
  | _, [] => []
  | fuel + 1, w :: ws => (w :: ws).take 16 :: toBlocksAux fuel ((w :: ws).drop 16)

/-- Split a word list into 16-word blocks. -/
def toBlocks (l : List Nat) : List (List Nat) := toBlocksAux l.length l

/-- Extend a 16-word block by `n` further message-schedule words. -/
def extendSchedule (w : List Nat) : Nat → List Nat
  | 0 => w
  | n + 1 =>
    let w2 := extendSchedule w n
    w2 ++ [w32 (smallSigma1 (w2.getD (w2.length - 2) 0) + w2.getD (w2.length - 7) 0 +
                smallSigma0 (w2.getD (w2.length - 15) 0) + w2.getD (w2.length - 16) 0)]

/-- The eight 32-bit working variables of the compression function. -/
structure Hash8 where
  a : Nat
  b : Nat
  c : Nat
  d : Nat
  e : Nat
  f : Nat
  g : Nat
  h : Nat
deriving Repr, DecidableEq

/-- One SHA-256 compression round. -/
def sha256Round (st : Hash8) (kt wt : Nat) : Hash8 :=
  let t1 := w32 (st.h + bigSigma1 st.e + chF st.e st.f st.g + kt + wt)
  let t2 := w32 (bigSigma0 st.a + majF st.a st.b st.c)
  ⟨w32 (t1 + t2), st.a, st.b, st.c, w32 (st.d + t1), st.e, st.f, st.g⟩

/-- Compress one 16-word block into the running hash value. -/
def compressBlock (hs : List Nat) (block : List Nat) : List Nat :=
  let w := extendSchedule block 48
  let init : Hash8 := ⟨hs.getD 0 0, hs.getD 1 0, hs.getD 2 0, hs.getD 3 0,
                       hs.getD 4 0, hs.getD 5 0, hs.getD 6 0, hs.getD 7 0⟩
  let fin := (K256.zip w).foldl (fun st p => sha256Round st p.1 p.2) init
  [w32 (hs.getD 0 0 + fin.a), w32 (hs.getD 1 0 + fin.b),
   w32 (hs.getD 2 0 + fin.c), w32 (hs.getD 3 0 + fin.d),
   w32 (hs.getD 4 0 + fin.e), w32 (hs.getD 5 0 + fin.f),
   w32 (hs.getD 6 0 + fin.g), w32 (hs.getD 7 0 + fin.h)]

/-- SHA-256 of a byte sequence, as eight 32-bit words. -/
def sha256Words (msg : List Nat) : List Nat :=
  (toBlocks (bytesToWords (padBytes msg))).foldl compressBlock H0

/-- Lower-case hex digit for a value below 16. -/
def hexDigit (n : Nat) : Char :=
  "0123456789abcdef".data.getD n '0'

/-- Eight-hex-digit rendering of a 32-bit word. -/
def toHex8 (x : Nat) : String :=
  String.mk ((List.range 8).map fun i => hexDigit (x / 16 ^ (7 - i) % 16))

/-- The hexadecimal SHA-256 digest of a string, UTF-8 encoded: the embedding
of `crypto.createHash('sha256')` followed by `update` and `digest('hex')`. -/
def sha256hex (s : String) : String :=
  String.join ((sha256Words (strBytes s)).map toHex8)

/-! ## JavaScript values and `makePrivateID` -/

/-- The JavaScript values `makePrivateID` distinguishes: its guards test
`typeof(x) != "string"`, so a missing argument (`undefined`), `null`, and
non-string primitives all take the sentinel path. -/
inductive JSValue
  | undefined
  | null
  | boolean (b : Bool)
  | number (n : Int)
  | str (s : String)
deriving Repr, DecidableEq

/-- `typeof` on the modelled values. -/
def jsTypeof : JSValue → String
  | .undefined => "undefined"
  | .null => "object"
  | .boolean _ => "boolean"
  | .number _ => "number"
  | .str _ => "string"

/-- Embedding of `makePrivateID(server_token, user_token)`: four guards
(`typeof` of each argument, then emptiness of each) return `null` — modelled
as `none` — and otherwise the function returns the hexadecimal SHA-256 digest
of `server_token + ":" + user_token`. -/
def makePrivateID (server_token user_token : JSValue) : Option String :=
  if jsTypeof server_token ≠ "string" then none
  else if jsTypeof user_token ≠ "string" then none
  else
    match server_token, user_token with
    | .str s, .str u =>
      if s.length = 0 then none
      else if u.length = 0 then none
      else some (sha256hex (s ++ ":" ++ u))
    | _, _ => none

/-! ## The connection registry and the handshake endpoint -/

/-- A `last_update` value.  The brand-new-identity branch of `WSS_Handshake`
stores `new Date()` (a Date object) while the existing-identity branch stores
`Date.now()` (a number of milliseconds); the two JavaScript representations
are kept apart as two constructors, each carrying the clock reading. -/
inductive Timestamp
  | dateObj (ms : Nat)
  | millis (ms : Nat)
deriving Repr, DecidableEq

/-- Whether a `last_update` value is a Date object (as opposed to a number). -/
def Timestamp.isDateObj : Timestamp → Bool
  | .dateObj _ => true
  | .millis _ => false

/-- One entry of `namespace.websocket.connections[connectionID]`: the
`connectionObj` built by `WSS_Handshake`.  `socket` is `null` until the
WebSocket upgrade completes, modelled as `Option`. -/
structure ConnectionRecord where
  user_token : String
  socket : Option Unit
  last_update : Timestamp
  server_token : String
deriving Repr, DecidableEq

/-- The `namespace.websocket.connections` object: connection identifiers
mapped to arrays of records, as an association list in property-insertion
order (JavaScript object keys are unique; every state built here keeps them
so). -/
abbrev Registry := List (String × List ConnectionRecord)

/-- Embedding of `makeConnectionID`: the remote protocol family and IP joined
with a colon; the port is omitted. -/
def makeConnectionID (remoteFamily remoteAddress : String) : String :=
  remoteFamily ++ ":" ++ remoteAddress

/-- The record array stored for a connection identifier, if any (`undefined`
when the property is absent). -/
def lookupConn (conns : Registry) (connectionID : String) : Option (List ConnectionRecord) :=
  (conns.find? fun p => p.1 = connectionID).map (fun p => p.2)

/-- `activeCountFor`: the number of records stored for an identifier (0 when
the property is absent). -/
def countFor (conns : Registry) (connectionID : String) : Nat :=
  ((lookupConn conns connectionID).getD []).length

/-- The total number of records across all identifiers: what the scan at the
top of `WSS_Handshake` counts into its outer `num_activeconnections` when no
duplicate token is found. -/
def totalRecords (conns : Registry) : Nat :=
  (conns.map fun p => p.2.length).sum

/-- Whether any record of any identifier carries this `user_token`: the
duplicate-token scan of `WSS_Handshake`. -/
def hasTokenGlobal (conns : Registry) (user_token : String) : Bool :=
  conns.any fun p => p.2.any fun r => r.user_token = user_token

/-- Add a record array under a brand-new identifier (JavaScript property
creation appends in insertion order). -/
def insertNew (conns : Registry) (connectionID : String) (arr : List ConnectionRecord) : Registry :=
  conns ++ [(connectionID, arr)]

/-- Push a record onto the array of an existing identifier. -/
def pushRecord (conns : Registry) (connectionID : String) (r : ConnectionRecord) : Registry :=
  conns.map fun p => if p.1 = connectionID then (p.1, p.2 ++ [r]) else p

/-- JavaScript's `String.prototype.startsWith`, used by the transport check
`sessionObj.endpoint.startsWith("http")`; embedded over the character list so
that it evaluates. -/
def jsStartsWith (s prefixStr : String) : Bool :=
  prefixStr.data.isPrefixOf s.data

/-- The `rpc_options` configuration the handshake reads. -/
structure RpcOptions where
  http_only_handshake : Bool
  max_ws_per_ip : Nat
deriving Repr, DecidableEq

/-- The `responseObj` sent by `sendResult` on admission. -/
structure AcceptResponse where
  message : String
  numconnections : Nat
  maxconnections : Nat
  peerconnections : Nat
  server_token : String
deriving Repr, DecidableEq

/-- The error outcomes of `WSS_Handshake`, named after the spec taxonomy: the
source sends `WRONG_TRANSPORT` for the first and `SESSION_CLOSE` with the
messages about an existing user token or too many connections for the other
two; `tooManyConnections` carries the `infoObj` diagnostic counts. -/
inductive HandshakeError
  | wrongTransport
  | duplicateToken
  | tooManyConnections (numconnections maxconnections : Nat)
deriving Repr, DecidableEq

/-- Embedding of `WSS_Handshake`.  The session's endpoint string, the
connection identifier computed by `makeConnectionID`, the request's
`user_token`, the freshly generated random `server_token`, and the clock
reading are parameters; the registry is threaded explicitly.  The body
follows the source line by line: transport check; duplicate-token scan over
all identifiers that also counts every existing record; then either the
brand-new-identity branch (create the array, push, respond with
`numconnections = 1` and `peerconnections` = the outer count plus one) or the
existing-identity branch (capacity check against `max_ws_per_ip`, then push
and respond with the updated array length). -/
def WSS_Handshake (rpc_options : RpcOptions) (endpoint connectionID user_token server_token : String)
    (now : Nat) (conns : Registry) : Except HandshakeError (AcceptResponse × Registry) :=
  if jsStartsWith endpoint "http" = false ∧ rpc_options.http_only_handshake then
    .error .wrongTransport
  else if hasTokenGlobal conns user_token then
    .error .duplicateToken
  else
    let num_activeconnections := totalRecords conns
    match lookupConn conns connectionID with
    | none =>
      let connectionObj : ConnectionRecord :=
        ⟨user_token, none, .dateObj now, server_token⟩
      let conns2 := insertNew conns connectionID [connectionObj]
      .ok (⟨"accept", 1, rpc_options.max_ws_per_ip, num_activeconnections + 1, server_token⟩,
           conns2)
    | some arr =>
      if arr.length ≥ rpc_options.max_ws_per_ip then
        .error (.tooManyConnections arr.length rpc_options.max_ws_per_ip)
      else
        let connectionObj : ConnectionRecord :=
          ⟨user_token, none, .millis now, server_token⟩
        let conns2 := pushRecord conns connectionID connectionObj
        .ok (⟨"accept", arr.length + 1, rpc_options.max_ws_per_ip, arr.length + 1, server_token⟩,
             conns2)

/-- One handshake request, bundling the per-request inputs of
`WSS_Handshake` (the randomness and clock reading included). -/
structure HandshakeRequest where
  endpoint : String
  connectionID : String
  user_token : String
  server_token : String
  now : Nat
deriving Repr, DecidableEq

/-- The registry after one handshake request: a successful handshake installs
its updated registry, a failed one leaves the registry exactly as it was (the
source's error paths return before any mutation). -/
def hsStep (rpc_options : RpcOptions) (q : HandshakeRequest) (conns : Registry) : Registry :=
  match WSS_Handshake rpc_options q.endpoint q.connectionID q.user_token q.server_token q.now conns with
  | .ok (_, conns2) => conns2
  | .error _ => conns

/-- Run a sequence of handshake requests against a registry. -/
def runHandshakes (rpc_options : RpcOptions) : List HandshakeRequest → Registry → Registry
  | [], conns => conns
  | q :: rest, conns => runHandshakes rpc_options rest (hsStep rpc_options q conns)

/-! ## The session validator -/

/-- The scan inside `handshakeOK`: on the first record whose `user_token`
matches, the answer is decided by its `server_token` alone; later records are
not consulted. -/
def scanRecords (user_token server_token : String) : List ConnectionRecord → Bool
  | [] => false
  | r :: rest =>
    if r.user_token = user_token then r.server_token = server_token
    else scanRecords user_token server_token rest

/-- Embedding of `handshakeOK`: `false` for an absent identifier or an empty
record array, otherwise the scan above over the identifier's records. -/
def handshakeOK (conns : Registry) (connectionID user_token server_token : String) : Bool :=
  match lookupConn conns connectionID with
  | none => false
  | some arr =>
    if arr.length = 0 then false
    else scanRecords user_token server_token arr

/-- Embedding of `allSessions`: flatten every identifier's records;
`activeOnly` keeps only records with an attached socket. -/
def allSessions (conns : Registry) (activeOnly : Bool) : List ConnectionRecord :=
  (conns.map fun p => if activeOnly then p.2.filter (fun r => r.socket ≠ none) else p.2).flatten

/-! ## The client-side request correlator -/

/-- An inbound WebSocket message after `JSON.parse`: its JSON-RPC `id` and
the rest of the parsed payload. -/
structure InboundMessage where
  id : String
  payload : String
deriving Repr, DecidableEq

/-- Embedding of the correlation loop of `CypherPokerContract.callContractAPI`:
the first inbound message is the RPC result, and `while (requestID != result.id)`
awaits and parses further messages.  The inbound stream is a list; the call
resolves with the first message whose `id` equals `requestID` and consumes
nothing after it; a stream with no matching message leaves the loop suspended
forever, modelled as `none`. -/
def callContractAPI_correlate (requestID : String) :
    List InboundMessage → Option (InboundMessage × List InboundMessage)
  | [] => none
  | msg :: rest =>
    if msg.id = requestID then some (msg, rest)
    else callContractAPI_correlate requestID rest

/-! ## Registry lemmas -/

theorem lookupConn_insertNew_self (conns : Registry) (connectionID : String)
    (arr : List ConnectionRecord) (h : lookupConn conns connectionID = none) :
    lookupConn (insertNew conns connectionID arr) connectionID = some arr := by
  have hf : conns.find? (fun p => p.1 = connectionID) = none := by
    unfold lookupConn at h
    cases hc : conns.find? fun p => p.1 = connectionID with
    | none => rfl
    | some p => rw [hc] at h; simp at h
  unfold lookupConn insertNew
  rw [List.find?_append, hf]
  simp [List.find?]

theorem lookupConn_insertNew_ne (conns : Registry) (connectionID c : String)
    (arr : List ConnectionRecord) (h : c ≠ connectionID) :
    lookupConn (insertNew conns connectionID arr) c = lookupConn conns c := by
  unfold lookupConn insertNew
  rw [List.find?_append]
  have : List.find? (fun p => p.1 = c) [(connectionID, arr)] = none := by
    simp [List.find?, Ne.symm h]
  rw [this]
  cases conns.find? fun p => p.1 = c <;> rfl

theorem lookupConn_pushRecord_self (conns : Registry) (connectionID : String)
    (r : ConnectionRecord) (arr : List ConnectionRecord)
    (h : lookupConn conns connectionID = some arr) :
    lookupConn (pushRecord conns connectionID r) connectionID = some (arr ++ [r]) := by
  induction conns with
  | nil => simp [lookupConn, List.find?] at h
  | cons p rest ih =>
    by_cases hp : p.1 = connectionID
    · unfold lookupConn at h
      rw [List.find?_cons_of_pos _ (by simp [hp])] at h
      simp at h
      unfold pushRecord lookupConn
      simp only [List.map_cons]
      rw [if_pos hp, List.find?_cons_of_pos _ (by simp [hp])]
      simp [h]
    · unfold lookupConn at h ⊢
      rw [List.find?_cons_of_neg _ (by simp [hp])] at h
      unfold pushRecord
      simp only [List.map_cons]
      rw [if_neg hp, List.find?_cons_of_neg _ (by simp [hp])]
      exact ih h

theorem lookupConn_pushRecord_ne (conns : Registry) (connectionID c : String)
    (r : ConnectionRecord) (h : c ≠ connectionID) :
    lookupConn (pushRecord conns connectionID r) c = lookupConn conns c := by
  induction conns with
  | nil => rfl
  | cons p rest ih =>
    unfold lookupConn pushRecord at ih ⊢
    simp only [List.map_cons]
    by_cases hp : p.1 = connectionID
    · have hpc : ¬ p.1 = c := fun hq => h (hq ▸ hp)
      rw [if_pos hp, List.find?_cons_of_neg _ (by simp [hpc]),
          List.find?_cons_of_neg _ (by simp [hpc])]
      exact ih
    · rw [if_neg hp]
      by_cases hpc : p.1 = c
      · rw [List.find?_cons_of_pos _ (by simp [hpc]), List.find?_cons_of_pos _ (by simp [hpc])]
      · rw [List.find?_cons_of_neg _ (by simp [hpc]), List.find?_cons_of_neg _ (by simp [hpc])]
        exact ih

/-! ## Branch characterizations of `WSS_Handshake` -/

theorem transport_cond_false {rpc_options : RpcOptions} {endpoint : String}
    (h : jsStartsWith endpoint "http" = true ∨ rpc_options.http_only_handshake = false) :
    ¬ (jsStartsWith endpoint "http" = false ∧ rpc_options.http_only_handshake) := by
  rcases h with h | h <;> simp [h]

theorem WSS_Handshake_wrongTransport (rpc_options : RpcOptions)
    (endpoint connectionID user_token server_token : String) (now : Nat) (conns : Registry)
    (h1 : jsStartsWith endpoint "http" = false) (h2 : rpc_options.http_only_handshake = true) :
    WSS_Handshake rpc_options endpoint connectionID user_token server_token now conns
      = .error .wrongTransport := by
  unfold WSS_Handshake
  rw [if_pos ⟨h1, by rw [h2]⟩]

theorem WSS_Handshake_dup (rpc_options : RpcOptions)
    (endpoint connectionID user_token server_token : String) (now : Nat) (conns : Registry)
    (htr : jsStartsWith endpoint "http" = true ∨ rpc_options.http_only_handshake = false)
    (hdup : hasTokenGlobal conns user_token = true) :
    WSS_Handshake rpc_options endpoint connectionID user_token server_token now conns
      = .error .duplicateToken := by
  unfold WSS_Handshake
  rw [if_neg (transport_cond_false htr), if_pos (by rw [hdup])]

theorem WSS_Handshake_ok_new (rpc_options : RpcOptions)
    (endpoint connectionID user_token server_token : String) (now : Nat) (conns : Registry)
    (htr : jsStartsWith endpoint "http" = true ∨ rpc_options.http_only_handshake = false)
    (hdup : hasTokenGlobal conns user_token = false)
    (hlk : lookupConn conns connectionID = none) :
    WSS_Handshake rpc_options endpoint connectionID user_token server_token now conns
      = .ok (⟨"accept", 1, rpc_options.max_ws_per_ip, totalRecords conns + 1, server_token⟩,
             insertNew conns connectionID [⟨user_token, none, .dateObj now, server_token⟩]) := by
  unfold WSS_Handshake
  rw [if_neg (transport_cond_false htr), if_neg (by rw [hdup]; exact Bool.false_ne_true), hlk]

theorem WSS_Handshake_cap (rpc_options : RpcOptions)
    (endpoint connectionID user_token server_token : String) (now : Nat) (conns : Registry)
    (arr : List ConnectionRecord)
    (htr : jsStartsWith endpoint "http" = true ∨ rpc_options.http_only_handshake = false)
    (hdup : hasTokenGlobal conns user_token = false)
    (hlk : lookupConn conns connectionID = some arr)
    (hge : arr.length ≥ rpc_options.max_ws_per_ip) :
    WSS_Handshake rpc_options endpoint connectionID user_token server_token now conns
      = .error (.tooManyConnections arr.length rpc_options.max_ws_per_ip) := by
  unfold WSS_Handshake
  rw [if_neg (transport_cond_false htr), if_neg (by rw [hdup]; exact Bool.false_ne_true), hlk]
  simp only [if_pos hge]

theorem WSS_Handshake_ok_push (rpc_options : RpcOptions)
    (endpoint connectionID user_token server_token : String) (now : Nat) (conns : Registry)
    (arr : List ConnectionRecord)
    (htr : jsStartsWith endpoint "http" = true ∨ rpc_options.http_only_handshake = false)
    (hdup : hasTokenGlobal conns user_token = false)
    (hlk : lookupConn conns connectionID = some arr)
    (hlt : arr.length < rpc_options.max_ws_per_ip) :
    WSS_Handshake rpc_options endpoint connectionID user_token server_token now conns
      = .ok (⟨"accept", arr.length + 1, rpc_options.max_ws_per_ip, arr.length + 1, server_token⟩,
             pushRecord conns connectionID ⟨user_token, none, .millis now, server_token⟩) := by
  unfold WSS_Handshake
  rw [if_neg (transport_cond_false htr), if_neg (by rw [hdup]; exact Bool.false_ne_true), hlk]
  simp only [if_neg (Nat.not_le.mpr hlt)]

theorem hsStep_error (rpc_options : RpcOptions) (conns : Registry)
    (q : HandshakeRequest) (e : HandshakeError)
    (h : WSS_Handshake rpc_options q.endpoint q.connectionID q.user_token q.server_token q.now conns
          = .error e) :
    hsStep rpc_options q conns = conns := by
  unfold hsStep
  rw [h]

theorem hsStep_ok (rpc_options : RpcOptions) (conns conns2 : Registry)
    (q : HandshakeRequest) (resp : AcceptResponse)
    (h : WSS_Handshake rpc_options q.endpoint q.connectionID q.user_token q.server_token q.now conns
          = .ok (resp, conns2)) :
    hsStep rpc_options q conns = conns2 := by
  unfold hsStep
  rw [h]

/-- A single failed handshake leaves the registry exactly as it was. -/
theorem runHandshakes_error (rpc_options : RpcOptions) (conns : Registry)
    (q : HandshakeRequest) (e : HandshakeError)
    (h : WSS_Handshake rpc_options q.endpoint q.connectionID q.user_token q.server_token q.now conns
          = .error e) :
    runHandshakes rpc_options [q] conns = conns := by
  simp only [runHandshakes]
  rw [hsStep_error rpc_options conns q e h]

/-! ## Claims about `makePrivateID` (TokenCrypto) -/

/-- C7: for all non-empty string inputs, `makePrivateID` returns the
hexadecimal SHA-256 digest of `server_token + ":" + user_token`.  The
embedding is a pure function, so determinism and absence of side effects are
inherent: the output is fully determined by the two arguments. -/
theorem makePrivateID_digest (s u : String) (hs : s ≠ "") (hu : u ≠ "") :
    makePrivateID (.str s) (.str u) = some (sha256hex (s ++ ":" ++ u)) := by
  have hs0 : s.length ≠ 0 := by
    cases s with
    | mk data =>
      cases data with
      | nil => simp at hs
      | cons c cs => simp [String.length]
  have hu0 : u.length ≠ 0 := by
    cases u with
    | mk data =>
      cases data with
      | nil => simp at hu
      | cons c cs => simp [String.length]
  simp [makePrivateID, jsTypeof, hs0, hu0]

/-- Witness for C7 at `s = "a"`, `u = "b"`: the digest it produces is the
SHA-256 digest of `"a:b"` computed by an independent implementation. -/
theorem makePrivateID_digest_witness :
    makePrivateID (.str "a") (.str "b") =
      some "6783a31eabf68ccc0660f935c0826282bdd2241f3a80a9f2d10d59aea9ebb5d8" := by
  rw [makePrivateID_digest "a" "b" (by decide) (by decide)]
  rfl

/-- C8: if either argument of `makePrivateID` is missing (`undefined`), not a
string, or the empty string, the function returns the `null` sentinel
(`none`) and never a digest; the embedding is total, so no exception is
possible. -/
theorem makePrivateID_invalid (a b : JSValue)
    (h : jsTypeof a ≠ "string" ∨ jsTypeof b ≠ "string" ∨ a = .str "" ∨ b = .str "") :
    makePrivateID a b = none := by
  cases a with
  | str s =>
    cases b with
    | str u =>
      rcases h with h | h | h | h
      · exact absurd rfl h
      · exact absurd rfl h
      · injection h with h2
        subst h2
        rfl
      · injection h with h2
        subst h2
        by_cases hs : s.length = 0 <;> simp [makePrivateID, jsTypeof, hs]
    | undefined => rfl
    | null => rfl
    | boolean b2 => rfl
    | number n => rfl
  | undefined => rfl
  | null => rfl
  | boolean b2 => rfl
  | number n => rfl

/-- Witness for C8: a missing first argument and an empty second argument
both yield the sentinel. -/
theorem makePrivateID_invalid_witness :
    makePrivateID .undefined (.str "x") = none ∧
    makePrivateID (.str "s") (.str "") = none :=
  ⟨makePrivateID_invalid _ _ (by left; decide),
   makePrivateID_invalid _ _ (by right; right; right; rfl)⟩

/-- C5 counterexample: the claim that `derivePrivateID(s, u)` differs from
`derivePrivateID(u, s)` whenever `s ≠ u` (both non-empty) is false: for
`s = "a:a"` and `u = "a"` the two concatenations `s + ":" + u` and
`u + ":" + s` are the same string `"a:a:a"`, so the two digests are equal
although `s ≠ u`. -/
theorem makePrivateID_swap_cex :
    ("a:a" : String) ≠ "a" ∧
    makePrivateID (.str "a:a") (.str "a") = makePrivateID (.str "a") (.str "a:a") := by
  constructor
  · decide
  · rfl

/-- C5 amended: `makePrivateID` hashes the colon-joined concatenation of its
arguments, so swapping the arguments yields the same output whenever
`s ++ ":" ++ u = u ++ ":" ++ s`; since this can happen for distinct `s` and
`u` (the counterexample above), the claimed inequality does not hold in
general, and for distinct concatenations it would need collision-freeness of
SHA-256, which is not a theorem. -/
theorem makePrivateID_swap (s u : String) (h : s ++ ":" ++ u = u ++ ":" ++ s) :
    makePrivateID (.str s) (.str u) = makePrivateID (.str u) (.str s) := by
  by_cases hs : s.length = 0 <;> by_cases hu : u.length = 0 <;>
    simp [makePrivateID, jsTypeof, hs, hu, h]

/-- Witness for C5's amended statement at the concrete colliding pair. -/
theorem makePrivateID_swap_witness :
    makePrivateID (.str "a:a") (.str "a") = makePrivateID (.str "a") (.str "a:a") :=
  makePrivateID_swap "a:a" "a" (by rfl)

/-! ## Claim about the request correlator -/

/-- C6: with a waiting call whose request id is `"Y"` and inbound messages
carrying ids `"X"`, `"Y"`, `"Z"` in that order, the correlation loop of
`callContractAPI` discards the `"X"` message, resolves with the `"Y"`
message, and leaves the `"Z"` message unconsumed; in general any inbound
message whose id differs from the awaited request id is discarded and the
loop suspends again for the next message. -/
theorem callContractAPI_correlator :
    (∀ a b c : String,
      callContractAPI_correlate "Y" [⟨"X", a⟩, ⟨"Y", b⟩, ⟨"Z", c⟩]
        = some (⟨"Y", b⟩, [⟨"Z", c⟩]))
    ∧ ∀ (requestID : String) (msg : InboundMessage) (rest : List InboundMessage),
        msg.id ≠ requestID →
        callContractAPI_correlate requestID (msg :: rest)
          = callContractAPI_correlate requestID rest := by
  constructor
  · intro a b c
    rfl
  · intro requestID msg rest h
    simp [callContractAPI_correlate, h]

/-- Witness for C6 at concrete payloads: the `"X"` message is discarded and
the stream past `"Y"` is untouched. -/
theorem callContractAPI_correlator_witness :
    callContractAPI_correlate "Y" [⟨"X", "pa"⟩, ⟨"Y", "pb"⟩, ⟨"Z", "pc"⟩]
        = some (⟨"Y", "pb"⟩, [⟨"Z", "pc"⟩]) ∧
    callContractAPI_correlate "Y" [⟨"X", "pa"⟩] = callContractAPI_correlate "Y" [] :=
  ⟨callContractAPI_correlator.1 "pa" "pb" "pc",
   callContractAPI_correlator.2 "Y" ⟨"X", "pa"⟩ [] (by decide)⟩

/-! ## Claims about the handshake endpoint -/

/-- C9: while `http_only_handshake` is set, a handshake arriving on an
endpoint that is not HTTP/HTTPS fails with `WrongTransport` and leaves the
registry completely unchanged; when the flag is unset, the transport check
never rejects a request (no input produces `WrongTransport`). -/
theorem wss_handshake_transport :
    (∀ (rpc_options : RpcOptions) (endpoint connectionID user_token server_token : String)
       (now : Nat) (conns : Registry),
       jsStartsWith endpoint "http" = false → rpc_options.http_only_handshake = true →
       WSS_Handshake rpc_options endpoint connectionID user_token server_token now conns
         = .error .wrongTransport ∧
       runHandshakes rpc_options [⟨endpoint, connectionID, user_token, server_token, now⟩] conns
         = conns)
    ∧ ∀ (rpc_options : RpcOptions) (endpoint connectionID user_token server_token : String)
        (now : Nat) (conns : Registry),
        rpc_options.http_only_handshake = false →
        WSS_Handshake rpc_options endpoint connectionID user_token server_token now conns
          ≠ .error .wrongTransport := by
  constructor
  · intro ro ep cid ut st now conns h1 h2
    have he := WSS_Handshake_wrongTransport ro ep cid ut st now conns h1 h2
    refine ⟨he, ?_⟩
    have := runHandshakes_error ro conns ⟨ep, cid, ut, st, now⟩ .wrongTransport he
    exact this
  · intro ro ep cid ut st now conns hflag
    by_cases hdup : hasTokenGlobal conns ut = true
    · rw [WSS_Handshake_dup ro ep cid ut st now conns (Or.inr hflag) hdup]
      simp
    · have hd : hasTokenGlobal conns ut = false := by
        cases hv : hasTokenGlobal conns ut
        · rfl
        · exact absurd hv hdup
      cases hlk : lookupConn conns cid with
      | none =>
        rw [WSS_Handshake_ok_new ro ep cid ut st now conns (Or.inr hflag) hd hlk]
        simp
      | some arr =>
        rcases Nat.lt_or_ge arr.length ro.max_ws_per_ip with hlt | hge
        · rw [WSS_Handshake_ok_push ro ep cid ut st now conns arr (Or.inr hflag) hd hlk hlt]
          simp
        · rw [WSS_Handshake_cap ro ep cid ut st now conns arr (Or.inr hflag) hd hlk hge]
          simp

/-- Witness for C9: with the flag set, a WebSocket-endpoint handshake is
rejected with `WrongTransport` and the registry is untouched; with the flag
unset the same request is not rejected by the transport check. -/
theorem wss_handshake_transport_witness :
    (WSS_Handshake ⟨true, 3⟩ "wss" "IPv4:1.2.3.4" "u1" "s1" 0 [] = .error .wrongTransport ∧
     runHandshakes ⟨true, 3⟩ [⟨"wss", "IPv4:1.2.3.4", "u1", "s1", 0⟩] [] = []) ∧
    WSS_Handshake ⟨false, 3⟩ "wss" "IPv4:1.2.3.4" "u1" "s1" 0 [] ≠ .error .wrongTransport :=
  ⟨wss_handshake_transport.1 ⟨true, 3⟩ "wss" "IPv4:1.2.3.4" "u1" "s1" 0 [] (by decide) rfl,
   wss_handshake_transport.2 ⟨false, 3⟩ "wss" "IPv4:1.2.3.4" "u1" "s1" 0 [] rfl⟩

/-- C2: a handshake whose `user_token` already appears in some record of any
identity (not only the requester's) fails with `DuplicateToken` and performs
no insert, leaving the whole registry unchanged.  The transport check runs
first in the source, so the request is assumed to pass it. -/
theorem wss_handshake_duplicate_token (rpc_options : RpcOptions)
    (endpoint connectionID user_token server_token : String) (now : Nat) (conns : Registry)
    (htr : jsStartsWith endpoint "http" = true ∨ rpc_options.http_only_handshake = false)
    (hdup : hasTokenGlobal conns user_token = true) :
    WSS_Handshake rpc_options endpoint connectionID user_token server_token now conns
      = .error .duplicateToken ∧
    runHandshakes rpc_options [⟨endpoint, connectionID, user_token, server_token, now⟩] conns
      = conns := by
  have he := WSS_Handshake_dup rpc_options endpoint connectionID user_token server_token now conns
    htr hdup
  exact ⟨he, runHandshakes_error rpc_options conns _ .duplicateToken he⟩

/-- Witness for C2: the duplicate token lives under a different identity
(`IPv4:9.9.9.9`) than the requester's (`IPv4:1.1.1.1`), and the handshake is
still rejected with the registry unchanged. -/
theorem wss_handshake_duplicate_token_witness :
    WSS_Handshake ⟨false, 3⟩ "http" "IPv4:1.1.1.1" "tok" "s2" 5
        [("IPv4:9.9.9.9", [⟨"tok", none, .dateObj 0, "s1"⟩])]
      = .error .duplicateToken ∧
    runHandshakes ⟨false, 3⟩ [⟨"http", "IPv4:1.1.1.1", "tok", "s2", 5⟩]
        [("IPv4:9.9.9.9", [⟨"tok", none, .dateObj 0, "s1"⟩])]
      = [("IPv4:9.9.9.9", [⟨"tok", none, .dateObj 0, "s1"⟩])] :=
  wss_handshake_duplicate_token ⟨false, 3⟩ "http" "IPv4:1.1.1.1" "tok" "s2" 5
    [("IPv4:9.9.9.9", [⟨"tok", none, .dateObj 0, "s1"⟩])] (Or.inr rfl) (by decide)

/-- C10: a successful handshake for a brand-new identity stores `last_update`
as a Date object (`new Date()`), while a successful handshake for an existing
identity appends a record whose `last_update` is a numeric millisecond
timestamp (`Date.now()`); the two representations differ, so an identity with
at least two records holds mixed `last_update` representations. -/
theorem wss_handshake_last_update (rpc_options : RpcOptions)
    (endpoint connectionID user_token server_token : String) (now : Nat) (conns : Registry)
    (htr : jsStartsWith endpoint "http" = true ∨ rpc_options.http_only_handshake = false)
    (hdup : hasTokenGlobal conns user_token = false) :
    (lookupConn conns connectionID = none →
      WSS_Handshake rpc_options endpoint connectionID user_token server_token now conns
        = .ok (⟨"accept", 1, rpc_options.max_ws_per_ip, totalRecords conns + 1, server_token⟩,
               insertNew conns connectionID [⟨user_token, none, .dateObj now, server_token⟩]))
    ∧ (∀ arr, lookupConn conns connectionID = some arr →
        arr.length < rpc_options.max_ws_per_ip →
        WSS_Handshake rpc_options endpoint connectionID user_token server_token now conns
          = .ok (⟨"accept", arr.length + 1, rpc_options.max_ws_per_ip, arr.length + 1,
                  server_token⟩,
                 pushRecord conns connectionID ⟨user_token, none, .millis now, server_token⟩))
    ∧ (Timestamp.dateObj now).isDateObj = true ∧ (Timestamp.millis now).isDateObj = false := by
  refine ⟨?_, ?_, rfl, rfl⟩
  · intro hlk
    exact WSS_Handshake_ok_new rpc_options endpoint connectionID user_token server_token now conns
      htr hdup hlk
  · intro arr hlk hlt
    exact WSS_Handshake_ok_push rpc_options endpoint connectionID user_token server_token now conns
      arr htr hdup hlk hlt

/-- Witness for C10: after a first and a second successful handshake for the
same identity, the identity's sequence holds a Date-object record followed by
a millisecond record. -/
theorem wss_handshake_last_update_witness :
    WSS_Handshake ⟨false, 3⟩ "http" "cid" "u2" "s2" 9
        [("cid", [⟨"u1", none, .dateObj 0, "s1"⟩])]
      = .ok (⟨"accept", 2, 3, 2, "s2"⟩,
             [("cid", [⟨"u1", none, .dateObj 0, "s1"⟩, ⟨"u2", none, .millis 9, "s2"⟩])]) ∧
    ([⟨"u1", none, .dateObj 0, "s1"⟩, ⟨"u2", none, (.millis 9 : Timestamp), "s2"⟩].map
        fun r : ConnectionRecord => r.last_update.isDateObj) = [true, false] := by
  constructor
  · have h := (wss_handshake_last_update ⟨false, 3⟩ "http" "cid" "u2" "s2" 9
        [("cid", [⟨"u1", none, .dateObj 0, "s1"⟩])] (Or.inr rfl) (by decide)).2.1
        [⟨"u1", none, .dateObj 0, "s1"⟩] (by decide) (by decide)
    rw [h]
    rfl
  · rfl

/-- C3 counterexample: the claim says `peerconnections` is the post-insert
record count for the requesting identity.  For a brand-new identity the
source instead reports the outer scan's global record count plus one: with
one record already present under a different identity, the accept response
carries `peerconnections = 2` while the requesting identity's post-insert
count is 1. -/
theorem wss_handshake_counts_cex :
    WSS_Handshake ⟨false, 3⟩ "http" "IPv4:2.2.2.2" "uB" "sB" 7
        [("IPv4:9.9.9.9", [⟨"uA", none, .dateObj 0, "sA"⟩])]
      = .ok (⟨"accept", 1, 3, 2, "sB"⟩,
             [("IPv4:9.9.9.9", [⟨"uA", none, .dateObj 0, "sA"⟩]),
              ("IPv4:2.2.2.2", [⟨"uB", none, .dateObj 7, "sB"⟩])]) ∧
    countFor [("IPv4:9.9.9.9", [⟨"uA", none, .dateObj 0, "sA"⟩]),
              ("IPv4:2.2.2.2", [⟨"uB", none, .dateObj 7, "sB"⟩])] "IPv4:2.2.2.2" = 1 ∧
    (2 : Nat) ≠ 1 := by
  refine ⟨rfl, by decide, by decide⟩

/-- C3 amended: on a successful handshake, `numconnections` is 1 for a
brand-new identity and the updated sequence length otherwise, and
`peerconnections` equals the post-insert record count for the requesting
identity in the existing-identity branch; in the brand-new-identity branch it
instead equals the pre-handshake record count over all identities plus one,
which coincides with the identity's post-insert count (1) only when the rest
of the registry is empty. -/
theorem wss_handshake_counts (rpc_options : RpcOptions)
    (endpoint connectionID user_token server_token : String) (now : Nat) (conns : Registry)
    (htr : jsStartsWith endpoint "http" = true ∨ rpc_options.http_only_handshake = false)
    (hdup : hasTokenGlobal conns user_token = false) :
    (lookupConn conns connectionID = none →
      WSS_Handshake rpc_options endpoint connectionID user_token server_token now conns
        = .ok (⟨"accept", 1, rpc_options.max_ws_per_ip, totalRecords conns + 1, server_token⟩,
               insertNew conns connectionID [⟨user_token, none, .dateObj now, server_token⟩])
      ∧ countFor (insertNew conns connectionID [⟨user_token, none, .dateObj now, server_token⟩])
          connectionID = 1)
    ∧ ∀ arr, lookupConn conns connectionID = some arr →
        arr.length < rpc_options.max_ws_per_ip →
        WSS_Handshake rpc_options endpoint connectionID user_token server_token now conns
          = .ok (⟨"accept", arr.length + 1, rpc_options.max_ws_per_ip, arr.length + 1,
                  server_token⟩,
                 pushRecord conns connectionID ⟨user_token, none, .millis now, server_token⟩)
        ∧ countFor (pushRecord conns connectionID ⟨user_token, none, .millis now, server_token⟩)
            connectionID = arr.length + 1 := by
  constructor
  · intro hlk
    refine ⟨WSS_Handshake_ok_new rpc_options endpoint connectionID user_token server_token now
      conns htr hdup hlk, ?_⟩
    unfold countFor
    rw [lookupConn_insertNew_self conns connectionID _ hlk]
    rfl
  · intro arr hlk hlt
    refine ⟨WSS_Handshake_ok_push rpc_options endpoint connectionID user_token server_token now
      conns arr htr hdup hlk hlt, ?_⟩
    unfold countFor
    rw [lookupConn_pushRecord_self conns connectionID _ arr hlk]
    simp

/-- Witness for C3's amended statement: a first handshake for a new identity
on an empty registry reports `numconnections = peerconnections = 1`, and a
second handshake for the same identity reports both as 2, matching the
identity's post-insert count. -/
theorem wss_handshake_counts_witness :
    (WSS_Handshake ⟨false, 3⟩ "http" "cid" "u1" "s1" 0 []
      = .ok (⟨"accept", 1, 3, 1, "s1"⟩, [("cid", [⟨"u1", none, .dateObj 0, "s1"⟩])])) ∧
    countFor [("cid", [⟨"u1", none, .dateObj 0, "s1"⟩])] "cid" = 1 := by
  have h := (wss_handshake_counts ⟨false, 3⟩ "http" "cid" "u1" "s1" 0 []
    (Or.inr rfl) (by decide)).1 (by decide)
  constructor
  · rw [h.1]
    rfl
  · have h2 := h.2
    simpa [insertNew] using h2

/-- If every identity's count respects a cap of at least 1, one handshake
step (successful or not) keeps every identity's count within the cap. -/
theorem hsStep_count_le (rpc_options : RpcOptions) (hmax : 1 ≤ rpc_options.max_ws_per_ip)
    (q : HandshakeRequest) (conns : Registry)
    (hinv : ∀ c, countFor conns c ≤ rpc_options.max_ws_per_ip) :
    ∀ c, countFor (hsStep rpc_options q conns) c ≤ rpc_options.max_ws_per_ip := by
  intro c
  by_cases htrbad : jsStartsWith q.endpoint "http" = false ∧ rpc_options.http_only_handshake = true
  · rw [hsStep_error rpc_options conns q .wrongTransport
      (WSS_Handshake_wrongTransport rpc_options q.endpoint q.connectionID q.user_token
        q.server_token q.now conns htrbad.1 htrbad.2)]
    exact hinv c
  · have htr : jsStartsWith q.endpoint "http" = true ∨ rpc_options.http_only_handshake = false := by
      cases hsw : jsStartsWith q.endpoint "http"
      · right
        cases hfl : rpc_options.http_only_handshake
        · rfl
        · exact absurd ⟨hsw, hfl⟩ htrbad
      · left
        rfl
    by_cases hdup : hasTokenGlobal conns q.user_token = true
    · rw [hsStep_error rpc_options conns q .duplicateToken
        (WSS_Handshake_dup rpc_options q.endpoint q.connectionID q.user_token q.server_token
          q.now conns htr hdup)]
      exact hinv c
    · have hd : hasTokenGlobal conns q.user_token = false := by
        cases hv : hasTokenGlobal conns q.user_token
        · rfl
        · exact absurd hv hdup
      cases hlk : lookupConn conns q.connectionID with
      | none =>
        rw [hsStep_ok rpc_options conns _ q _
          (WSS_Handshake_ok_new rpc_options q.endpoint q.connectionID q.user_token
            q.server_token q.now conns htr hd hlk)]
        by_cases hc : c = q.connectionID
        · subst hc
          unfold countFor
          rw [lookupConn_insertNew_self conns q.connectionID _ hlk]
          simpa using hmax
        · unfold countFor
          rw [lookupConn_insertNew_ne conns q.connectionID c _ hc]
          exact hinv c
      | some arr =>
        rcases Nat.lt_or_ge arr.length rpc_options.max_ws_per_ip with hlt | hge
        · rw [hsStep_ok rpc_options conns _ q _
            (WSS_Handshake_ok_push rpc_options q.endpoint q.connectionID q.user_token
              q.server_token q.now conns arr htr hd hlk hlt)]
          by_cases hc : c = q.connectionID
          · subst hc
            unfold countFor
            rw [lookupConn_pushRecord_self conns q.connectionID _ arr hlk]
            simpa using hlt
          · unfold countFor
            rw [lookupConn_pushRecord_ne conns q.connectionID c _ hc]
            exact hinv c
        · rw [hsStep_error rpc_options conns q _
            (WSS_Handshake_cap rpc_options q.endpoint q.connectionID q.user_token q.server_token
              q.now conns arr htr hd hlk hge)]
          exact hinv c

/-- The per-identity cap is an invariant of any run of handshakes when the
cap is at least 1. -/
theorem runHandshakes_count_le (rpc_options : RpcOptions)
    (hmax : 1 ≤ rpc_options.max_ws_per_ip) :
    ∀ (reqs : List HandshakeRequest) (conns : Registry),
      (∀ c, countFor conns c ≤ rpc_options.max_ws_per_ip) →
      ∀ c, countFor (runHandshakes rpc_options reqs conns) c ≤ rpc_options.max_ws_per_ip := by
  intro reqs
  induction reqs with
  | nil => intro conns h c; exact h c
  | cons q rest ih =>
    intro conns h c
    simp only [runHandshakes]
    exact ih (hsStep rpc_options q conns) (hsStep_count_le rpc_options hmax q conns h) c

/-- C1 counterexample: the brand-new-identity branch of `WSS_Handshake`
performs no capacity check at all, so the limit is not enforced by that code
path.  With `max_ws_per_ip = 0`, the `(max_ws_per_ip + 1)`-th (first)
handshake of a brand-new identity succeeds instead of failing with
`TooManyConnections`, and afterwards the identity's record count is 1, which
exceeds `max_ws_per_ip`. -/
theorem wss_handshake_capacity_cex :
    WSS_Handshake ⟨false, 0⟩ "http" "IPv4:1.2.3.4" "u1" "s1" 0 []
      = .ok (⟨"accept", 1, 0, 1, "s1"⟩, [("IPv4:1.2.3.4", [⟨"u1", none, .dateObj 0, "s1"⟩])]) ∧
    ¬ countFor (runHandshakes ⟨false, 0⟩ [⟨"http", "IPv4:1.2.3.4", "u1", "s1", 0⟩] [])
        "IPv4:1.2.3.4" ≤ 0 := by
  refine ⟨rfl, by decide⟩

/-- C1 amended: when `max_ws_per_ip ≥ 1`, after any sequence of handshakes
every identity's record count stays at most `max_ws_per_ip` (starting from
any registry already within the cap, in particular the empty one), and a
handshake for an identity already holding `max_ws_per_ip` records — arriving
over an admissible transport with a not-yet-registered `user_token` — fails
with `TooManyConnections` and leaves the registry unchanged.  For
`max_ws_per_ip = 0` the claim fails (counterexample above) because the
brand-new-identity branch, unlike the existing-identity branch, checks no
limit before inserting. -/
theorem wss_handshake_capacity (rpc_options : RpcOptions)
    (hmax : 1 ≤ rpc_options.max_ws_per_ip) :
    (∀ (reqs : List HandshakeRequest) (conns : Registry) (c : String),
      (∀ c2, countFor conns c2 ≤ rpc_options.max_ws_per_ip) →
      countFor (runHandshakes rpc_options reqs conns) c ≤ rpc_options.max_ws_per_ip)
    ∧ ∀ (endpoint connectionID user_token server_token : String) (now : Nat) (conns : Registry),
        (jsStartsWith endpoint "http" = true ∨ rpc_options.http_only_handshake = false) →
        hasTokenGlobal conns user_token = false →
        countFor conns connectionID = rpc_options.max_ws_per_ip →
        WSS_Handshake rpc_options endpoint connectionID user_token server_token now conns
          = .error (.tooManyConnections rpc_options.max_ws_per_ip rpc_options.max_ws_per_ip) ∧
        runHandshakes rpc_options [⟨endpoint, connectionID, user_token, server_token, now⟩] conns
          = conns := by
  constructor
  · intro reqs conns c h
    exact runHandshakes_count_le rpc_options hmax reqs conns h c
  · intro endpoint connectionID user_token server_token now conns htr hdup hcount
    cases hlk : lookupConn conns connectionID with
    | none =>
      exfalso
      unfold countFor at hcount
      rw [hlk] at hcount
      simp at hcount
      omega
    | some arr =>
      have hlen : arr.length = rpc_options.max_ws_per_ip := by
        unfold countFor at hcount
        rw [hlk] at hcount
        simpa using hcount
      have he := WSS_Handshake_cap rpc_options endpoint connectionID user_token server_token now
        conns arr htr hdup hlk (le_of_eq hlen.symm)
      rw [hlen] at he
      exact ⟨he, runHandshakes_error rpc_options conns _ _ he⟩

/-- Witness for C1's amended statement with `max_ws_per_ip = 3`: any run from
the empty registry stays within the cap, and a fourth handshake for an
identity already holding three records is rejected with
`TooManyConnections 3 3`. -/
theorem wss_handshake_capacity_witness :
    countFor (runHandshakes ⟨false, 3⟩ [⟨"http", "cid", "u1", "s1", 0⟩] []) "cid" ≤ 3 ∧
    WSS_Handshake ⟨false, 3⟩ "http" "cid" "u9" "s9" 5
        [("cid", [⟨"u1", none, .millis 0, "s1"⟩, ⟨"u2", none, .millis 0, "s2"⟩,
                  ⟨"u3", none, .millis 0, "s3"⟩])]
      = .error (.tooManyConnections 3 3) :=
  ⟨(wss_handshake_capacity ⟨false, 3⟩ (by decide)).1 [⟨"http", "cid", "u1", "s1", 0⟩] [] "cid"
      (fun c => by simp [countFor, lookupConn]),
   ((wss_handshake_capacity ⟨false, 3⟩ (by decide)).2 "http" "cid" "u9" "s9" 5
      [("cid", [⟨"u1", none, .millis 0, "s1"⟩, ⟨"u2", none, .millis 0, "s2"⟩,
                ⟨"u3", none, .millis 0, "s3"⟩])]
      (Or.inr rfl) (by decide) (by decide)).1⟩

/-! ## Claim about the session validator -/

/-- The scan of `handshakeOK` finds a fully matching record exactly when one
exists, provided no two records in the list share a `user_token` (the
registry invariant): the scan answers from the first `user_token` match
alone, so without the invariant a later record matching both fields could be
shadowed. -/
theorem scanRecords_iff (user_token server_token : String) (arr : List ConnectionRecord)
    (hinv : arr.Pairwise fun r1 r2 => r1.user_token ≠ r2.user_token) :
    scanRecords user_token server_token arr = true ↔
      ∃ r ∈ arr, r.user_token = user_token ∧ r.server_token = server_token := by
  induction arr with
  | nil => simp [scanRecords]
  | cons r rest ih =>
    rcases List.pairwise_cons.mp hinv with ⟨hr, hrest⟩
    by_cases hu : r.user_token = user_token
    · simp only [scanRecords, if_pos hu, decide_eq_true_eq]
      constructor
      · intro hs
        exact ⟨r, List.mem_cons_self r rest, hu, hs⟩
      · rintro ⟨r2, hmem, hu2, hs2⟩
        rcases List.mem_cons.mp hmem with heq | hmem2
        · exact heq ▸ hs2
        · exact absurd (hu.trans hu2.symm) (hr r2 hmem2)
    · simp only [scanRecords, if_neg hu]
      rw [ih hrest]
      constructor
      · rintro ⟨r2, hmem, hp⟩
        exact ⟨r2, List.mem_cons_of_mem r hmem, hp⟩
      · rintro ⟨r2, hmem, hp⟩
        rcases List.mem_cons.mp hmem with heq | hmem2
        · exact absurd (heq ▸ hp.1) hu
        · exact ⟨r2, hmem2, hp⟩

/-- C4: under the registry invariant that no two records of an identity share
a `user_token` (which the handshake's global duplicate check maintains),
`handshakeOK` returns `true` exactly when some record stored for the identity
matches both the claimed `user_token` and the claimed `server_token`; an
absent identity or empty record list gives the empty record set, so the
right-hand side is false, and a single-field match never satisfies it.  The
embedding is a total function, so no error can be raised. -/
theorem handshakeOK_iff (conns : Registry) (connectionID user_token server_token : String)
    (hinv : ((lookupConn conns connectionID).getD []).Pairwise
      fun r1 r2 => r1.user_token ≠ r2.user_token) :
    handshakeOK conns connectionID user_token server_token = true ↔
      ∃ r ∈ (lookupConn conns connectionID).getD [],
        r.user_token = user_token ∧ r.server_token = server_token := by
  unfold handshakeOK
  cases hlk : lookupConn conns connectionID with
  | none => simp
  | some arr =>
    rw [hlk] at hinv
    simp only [Option.getD_some] at hinv ⊢
    cases arr with
    | nil => simp
    | cons r rest =>
      rw [if_neg (by simp)]
      exact scanRecords_iff user_token server_token (r :: rest) hinv

/-- Witness for C4: a single-record registry where both tokens match yields
`true`. -/
theorem handshakeOK_iff_witness :
    handshakeOK [("cid", [⟨"u", none, .millis 0, "s"⟩])] "cid" "u" "s" = true :=
  (handshakeOK_iff [("cid", [⟨"u", none, .millis 0, "s"⟩])] "cid" "u" "s"
      (by simp [lookupConn, List.find?])).mpr
    ⟨⟨"u", none, .millis 0, "s"⟩, by simp [lookupConn, List.find?], rfl, rfl⟩

end CryptoPokerJS
